import Mathlib

/-!
Verification of the Presence & Realtime Gateway of the Co-Link repository
(`services/presence/app/main.py` and `services/presence/app/models.py`).

The `ConnectionManager` class and the `websocket_endpoint` dispatcher are
embedded as pure state-transition functions over `MState`.  Python dicts
(`active_connections`, `websockets`, `room_subscriptions`, the Redis
key-value store) are modelled as functions from keys to `Option` values;
Python `set` values are modelled as duplicate-free lists (insertion
ordered); the `ConnectionInfo.subscriptions` *list* is modelled as a plain
list, with `append` / `remove` translated exactly (remove drops the first
occurrence only, as `list.remove` does).  Outbound socket traffic and
Redis `publish` calls are recorded in append-only logs (`outbox`,
`published`).  Wall-clock reads (`datetime.utcnow()`) become explicit
`now : Nat` parameters (seconds); `websocket.send_json` failures become an
explicit boolean oracle, because the `except` branch of
`send_personal_message` triggers `disconnect`.
-/

namespace Presence

/-- PRESENCE_TTL from main.py (300 seconds). -/
def PRESENCE_TTL : Nat := 300

/-- TYPING_TTL from main.py (5 seconds). -/
def TYPING_TTL : Nat := 5

/-- HEARTBEAT_INTERVAL from main.py (30 seconds). -/
def HEARTBEAT_INTERVAL : Nat := 30

/-- UserPresence record from models.py (stored as JSON in Redis). -/
structure UserPresence where
  user_id : String
  username : String
  status : String
  connection_id : String
  last_seen : Nat
deriving DecidableEq, Repr

/-- ConnectionInfo record from models.py.  `subscriptions` is a Python
*list* (`list[str]`), not a set. -/
structure ConnectionInfo where
  connection_id : String
  user_id : String
  username : String
  connected_at : Nat
  last_heartbeat : Nat
  subscriptions : List String
deriving DecidableEq, Repr

/-- Values stored in Redis by this service: presence JSON blobs and
typing-indicator usernames. -/
inductive RVal where
  | presence (p : UserPresence)
  | typingName (username : String)
deriving DecidableEq, Repr

/-- Messages published on the Redis pub/sub bus by this service.  The only
`redis.publish` call in main.py is in `broadcast_presence`. -/
inductive BusMsg where
  | presenceUpd (user_id username status : String) (timestamp : Nat)
deriving DecidableEq, Repr

/-- Outbound server-to-client frames (models.py server message classes). -/
inductive OutMsg where
  | pong (timestamp : Nat)
  | subscribed (channel_id dm_id : Option String)
  | unsubscribed (channel_id dm_id : Option String)
  | typingB (channel_id dm_id : Option String) (user_id username : String)
  | error (error : String) (code : Option Nat)
deriving DecidableEq, Repr

/-- Inbound client frame as received by `websocket.receive_json` and fed to
the pydantic models: a `type` tag plus the optional room-identifying
fields carried by subscribe/unsubscribe/typing frames. -/
structure RawFrame where
  type : String
  channel_id : Option String
  dm_id : Option String
deriving DecidableEq, Repr

/-- Pointwise update of a function-encoded dictionary. -/
def fupd {α : Type} (m : String → α) (k : String) (v : α) : String → α :=
  fun q => if q = k then v else m q

/-- Python truthiness of an `Optional[str]`: `None` and `""` are falsy. -/
def pyTruthy : Option String → Bool
  | none => false
  | some s => s != ""

/-- Python `a or b` on `Optional[str]` values (as in
`subscribe_msg.channel_id or subscribe_msg.dm_id`). -/
def pyOr (a b : Option String) : Option String :=
  if pyTruthy a then a else b

/-- Admissible values of the `MessageType` Literal in models.py; pydantic
validation of `WSMessage` rejects any other `type` tag. -/
def MessageTypeValues : List String :=
  ["subscribe", "unsubscribe", "typing", "ping", "pong", "subscribed",
   "unsubscribed", "message", "presence", "error"]

/-- Representative text of `str(e)` for a pydantic ValidationError raised
by `WSMessage(**data)`; the dispatcher forwards it verbatim and no claim
depends on its exact wording. -/
def validationErrorText : String := "1 validation error for WSMessage"

/-- Failure oracle meaning every `websocket.send_json` call succeeds. -/
def noFail : String → Bool := fun _ => false

/-- State of one gateway instance: the three `ConnectionManager` dicts
(the websocket dict is tracked by its key set: `True` means a socket is
registered under that id), the Redis keyspace with the TTL passed to
`setex`, the log of `redis.publish` calls, and the log of successful
`send_json` calls. -/
structure MState where
  active_connections : String → Option ConnectionInfo
  websockets : String → Bool
  room_subscriptions : String → Option (List String)
  redisStore : String → Option (RVal × Nat)
  published : List (String × BusMsg)
  outbox : List (String × OutMsg)

/-- State of a freshly constructed `ConnectionManager`. -/
def initState : MState :=
  { active_connections := fun _ => none
    websockets := fun _ => false
    room_subscriptions := fun _ => none
    redisStore := fun _ => none
    published := []
    outbox := [] }

/-- ConnectionManager.update_presence: `setex` of the presence key with a
fresh PRESENCE_TTL. -/
def update_presence (st : MState) (user_id username status connection_id : String)
    (now : Nat) : MState :=
  { st with redisStore :=
      (fupd st.redisStore ("presence:" ++ user_id)
        (some (.presence ⟨user_id, username, status, connection_id, now⟩, PRESENCE_TTL))) }

/-- ConnectionManager.broadcast_presence: a single `redis.publish` on the
"presence:updates" channel (local delivery happens only via the pub/sub
listener receiving this publication). -/
def broadcast_presence (st : MState) (user_id username status : String)
    (now : Nat) : MState :=
  { st with published :=
      st.published ++ [("presence:updates", .presenceUpd user_id username status now)] }

/-- ConnectionManager.connect, after `uuid4` has produced `connection_id`:
register the ConnectionInfo (empty subscriptions) and the socket, write
presence online, publish the online broadcast. -/
def connect (st : MState) (connection_id user_id username : String) (now : Nat) :
    MState :=
  let conn_info : ConnectionInfo :=
    { connection_id := connection_id, user_id := user_id, username := username
      connected_at := now, last_heartbeat := now, subscriptions := [] }
  let st := { st with
    active_connections := fupd st.active_connections connection_id (some conn_info)
    websockets := fupd st.websockets connection_id true }
  let st := update_presence st user_id username "online" connection_id now
  broadcast_presence st user_id username "online" now

/-- ConnectionManager.subscribe: no-op on an unknown connection_id;
otherwise `set.add` on the room's entry (created on demand) and a plain
list `append` on the connection's own subscriptions. -/
def subscribe (st : MState) (connection_id room_id : String) : MState :=
  match st.active_connections connection_id with
  | none => st
  | some conn_info =>
    let subs := (st.room_subscriptions room_id).getD []
    let subs := if connection_id ∈ subs then subs else subs ++ [connection_id]
    { st with
      room_subscriptions := fupd st.room_subscriptions room_id (some subs)
      active_connections :=
        (fupd st.active_connections connection_id
          (some { conn_info with subscriptions := conn_info.subscriptions ++ [room_id] })) }

/-- ConnectionManager.unsubscribe: no-op on an unknown connection_id;
otherwise `set.discard` on the room's entry, deleting the key if the set
becomes empty, then `list.remove` (first occurrence) on the connection's
subscriptions when present. -/
def unsubscribe (st : MState) (connection_id room_id : String) : MState :=
  match st.active_connections connection_id with
  | none => st
  | some conn_info =>
    let rooms :=
      match st.room_subscriptions room_id with
      | none => st.room_subscriptions
      | some subs =>
        let subs := subs.filter (fun c => c != connection_id)
        if subs.isEmpty then fupd st.room_subscriptions room_id none
        else fupd st.room_subscriptions room_id (some subs)
    let active :=
      if room_id ∈ conn_info.subscriptions then
        fupd st.active_connections connection_id
          (some { conn_info with subscriptions := conn_info.subscriptions.erase room_id })
      else st.active_connections
    { st with room_subscriptions := rooms, active_connections := active }

/-- ConnectionManager.disconnect: no-op on an unknown connection_id;
otherwise unsubscribe from every room in a *copy* of the subscriptions
list (`conn_info.subscriptions[:]`), write presence offline, publish the
offline broadcast, and delete both dict entries. -/
def disconnect (st : MState) (connection_id : String) (now : Nat) : MState :=
  match st.active_connections connection_id with
  | none => st
  | some conn_info =>
    let st := conn_info.subscriptions.foldl
      (fun s room_id => unsubscribe s connection_id room_id) st
    let st := update_presence st conn_info.user_id conn_info.username "offline"
      connection_id now
    let st := broadcast_presence st conn_info.user_id conn_info.username "offline" now
    { st with
      active_connections := fupd st.active_connections connection_id none
      websockets := fupd st.websockets connection_id false }

/-- ConnectionManager.send_personal_message: no-op when the connection_id
has no socket; otherwise a successful `send_json` appends to the outbox,
and a raising `send_json` (oracle `sendFails`) runs `disconnect`. -/
def send_personal_message (st : MState) (connection_id : String) (message : OutMsg)
    (sendFails : Bool) (now : Nat) : MState :=
  if st.websockets connection_id then
    if sendFails then disconnect st connection_id now
    else { st with outbox := st.outbox ++ [(connection_id, message)] }
  else st

/-- ConnectionManager.broadcast_to_room: iterate over a copy of the room's
subscriber set, skipping `exclude` (Python: `if exclude and connection_id
== exclude`), sending to each remaining member; `fails` tells which sends
raise. -/
def broadcast_to_room (st : MState) (room_id : String) (message : OutMsg)
    (exclude : Option String) (fails : String → Bool) (now : Nat) : MState :=
  match st.room_subscriptions room_id with
  | none => st
  | some subs =>
    subs.foldl
      (fun s connection_id =>
        if pyTruthy exclude && (some connection_id == exclude) then s
        else send_personal_message s connection_id message (fails connection_id) now)
      st

/-- Python str.startswith, computed on the character sequence (so that it
evaluates by kernel reduction). -/
def strStartsWith (s pre : String) : Bool := pre.data.isPrefixOf s.data

/-- TypingBroadcast constructed by ConnectionManager.update_typing:
channel_id is set when the room id starts with "channel_", dm_id when it
starts with "dm_". -/
def mkTypingBroadcast (user_id username room_id : String) : OutMsg :=
  .typingB (if strStartsWith room_id "channel_" then some room_id else none)
           (if strStartsWith room_id "dm_" then some room_id else none)
           user_id username

/-- ConnectionManager.update_typing: `setex` of the typing key with
TYPING_TTL, then a local `broadcast_to_room` of the TypingBroadcast (no
`redis.publish` occurs in this method). -/
def update_typing (st : MState) (user_id username room_id : String)
    (fails : String → Bool) (now : Nat) : MState :=
  let st := { st with redisStore :=
      (fupd st.redisStore ("typing:" ++ room_id ++ ":" ++ user_id)
        (some (.typingName username, TYPING_TTL))) }
  broadcast_to_room st room_id (mkTypingBroadcast user_id username room_id) none fails now

/-- ConnectionManager.update_heartbeat: on a registered connection, set
last_heartbeat to now and rewrite the presence record with status
"online" and a fresh TTL. -/
def update_heartbeat (st : MState) (connection_id : String) (now : Nat) : MState :=
  match st.active_connections connection_id with
  | none => st
  | some conn_info =>
    let st := { st with active_connections :=
        (fupd st.active_connections connection_id
          (some { conn_info with last_heartbeat := now })) }
    update_presence st conn_info.user_id conn_info.username "online" connection_id now

/-- One iteration of the `websocket_endpoint` message loop in the ACTIVE
state, for the connection `connection_id` of the authenticated user
`(user_id, username)`.  `WSMessage(**data)` validates the `type` tag
against the `MessageType` Literal: an unlisted tag raises, landing in the
generic `except` branch which sends `ErrorMessage(str(e), 500)`.  A listed
tag dispatches: subscribe/unsubscribe/typing derive the room id as
`channel_id or dm_id` and silently skip the frame when that is falsy;
ping updates the heartbeat and answers with a Pong; every other listed tag
hits the final `else` which sends `ErrorMessage(..., 400)`. -/
def handleFrame (st : MState) (connection_id user_id username : String)
    (fails : String → Bool) (now : Nat) (frame : RawFrame) : MState :=
  if frame.type ∈ MessageTypeValues then
    if frame.type = "subscribe" then
      let room_id := pyOr frame.channel_id frame.dm_id
      if pyTruthy room_id then
        let st := subscribe st connection_id (room_id.getD "")
        send_personal_message st connection_id
          (.subscribed frame.channel_id frame.dm_id) (fails connection_id) now
      else st
    else if frame.type = "unsubscribe" then
      let room_id := pyOr frame.channel_id frame.dm_id
      if pyTruthy room_id then
        let st := unsubscribe st connection_id (room_id.getD "")
        send_personal_message st connection_id
          (.unsubscribed frame.channel_id frame.dm_id) (fails connection_id) now
      else st
    else if frame.type = "typing" then
      let room_id := pyOr frame.channel_id frame.dm_id
      if pyTruthy room_id then
        update_typing st user_id username (room_id.getD "") fails now
      else st
    else if frame.type = "ping" then
      let st := update_heartbeat st connection_id now
      send_personal_message st connection_id (.pong now) (fails connection_id) now
    else
      send_personal_message st connection_id
        (.error ("Unknown message type: " ++ frame.type) (some 400))
        (fails connection_id) now
  else
    send_personal_message st connection_id
      (.error validationErrorText (some 500)) (fails connection_id) now

/-- Several iterations of the ACTIVE message loop; each frame is paired
with the wall-clock second at which it is handled.  None of the handled
branches leaves the loop, so the connection stays in the ACTIVE state
throughout. -/
def handleFrames (st : MState) (connection_id user_id username : String)
    (fails : String → Bool) : List (Nat × RawFrame) → MState
  | [] => st
  | (now, frame) :: rest =>
    handleFrames (handleFrame st connection_id user_id username fails now frame)
      connection_id user_id username fails rest

/-- Frames appended to the outbox between an earlier state and a later
state of the same run. -/
def newMsgs (st st' : MState) : List (String × OutMsg) :=
  st'.outbox.drop st.outbox.length

/-- Liveness test of the per-connection `heartbeat_checker` task:
`(utcnow() - conn_info.last_heartbeat).total_seconds() > HEARTBEAT_INTERVAL * 2`. -/
def heartbeatExpired (now last : Nat) : Bool :=
  decide (HEARTBEAT_INTERVAL * 2 < now - last)

/-- Close code used by the watchdog (`websocket.close(code=1008, reason=
"Heartbeat timeout")`). -/
def heartbeatCloseCode : Nat := 1008

/-- Run of the watchdog over its successive wake-ups; each wake-up
observes the pair (current time, the connection's last_heartbeat).  The
watchdog closes the socket with `heartbeatCloseCode` at the first wake-up
whose observation is expired, and otherwise never closes. -/
def watchdogRun : List (Nat × Nat) → Option Nat
  | [] => none
  | (now, last) :: rest =>
    if heartbeatExpired now last then some heartbeatCloseCode else watchdogRun rest

/-- Operations of the `ConnectionManager` as invoked by the gateway.  For
`connect`, the connection_id stands for the value produced by
`uuid.uuid4()`.  `typing` carries its set of failing sockets as a list;
`send` carries the failure of its single `send_json` call. -/
inductive Op where
  | connect (connection_id user_id username : String) (now : Nat)
  | disconnect (connection_id : String) (now : Nat)
  | subscribe (connection_id room_id : String)
  | unsubscribe (connection_id room_id : String)
  | ping (connection_id : String) (now : Nat)
  | typing (user_id username room_id : String) (failList : List String) (now : Nat)
  | send (connection_id : String) (message : OutMsg) (sendFails : Bool) (now : Nat)
deriving DecidableEq, Repr

/-- Apply one operation.  The guard on `connect` models the freshness of
`uuid.uuid4()`: a generated id never equals the id of a live connection. -/
def applyOp (st : MState) : Op → MState
  | .connect cid u un now =>
    if (st.active_connections cid).isSome then st else connect st cid u un now
  | .disconnect cid now => disconnect st cid now
  | .subscribe cid room => subscribe st cid room
  | .unsubscribe cid room => unsubscribe st cid room
  | .ping cid now => update_heartbeat st cid now
  | .typing u un room failList now =>
    update_typing st u un room (fun c => failList.contains c) now
  | .send cid msg sendFails now => send_personal_message st cid msg sendFails now

/-- State reached from a fresh `ConnectionManager` by a sequence of
operations. -/
def runOps (ops : List Op) : MState :=
  ops.foldl applyOp initState

/-- Reachability of a `ConnectionManager` state. -/
def Reachable (st : MState) : Prop :=
  ∃ ops : List Op, runOps ops = st

/-! Helper lemmas characterizing the effect of each operation on each
component of the state. -/

theorem fupd_same {α : Type} (m : String → α) (k : String) : fupd m k (m k) = m := by
  funext q
  by_cases h : q = k <;> simp [fupd, h]

theorem fupd_self {α : Type} (m : String → α) (k : String) (v : α) :
    fupd m k v k = v := by
  simp [fupd]

theorem fupd_other {α : Type} (m : String → α) (k : String) (v : α) (q : String)
    (h : q ≠ k) : fupd m k v q = m q := by
  simp [fupd, h]

theorem update_presence_active (st : MState) (u un s c : String) (now : Nat) :
    (update_presence st u un s c now).active_connections = st.active_connections := rfl

theorem update_presence_websockets (st : MState) (u un s c : String) (now : Nat) :
    (update_presence st u un s c now).websockets = st.websockets := rfl

theorem update_presence_rooms (st : MState) (u un s c : String) (now : Nat) :
    (update_presence st u un s c now).room_subscriptions = st.room_subscriptions := rfl

theorem update_presence_outbox (st : MState) (u un s c : String) (now : Nat) :
    (update_presence st u un s c now).outbox = st.outbox := rfl

theorem update_presence_published (st : MState) (u un s c : String) (now : Nat) :
    (update_presence st u un s c now).published = st.published := rfl

theorem broadcast_presence_active (st : MState) (u un s : String) (now : Nat) :
    (broadcast_presence st u un s now).active_connections = st.active_connections := rfl

theorem broadcast_presence_websockets (st : MState) (u un s : String) (now : Nat) :
    (broadcast_presence st u un s now).websockets = st.websockets := rfl

theorem broadcast_presence_rooms (st : MState) (u un s : String) (now : Nat) :
    (broadcast_presence st u un s now).room_subscriptions = st.room_subscriptions := rfl

theorem broadcast_presence_outbox (st : MState) (u un s : String) (now : Nat) :
    (broadcast_presence st u un s now).outbox = st.outbox := rfl

theorem connect_active (st : MState) (cid u un : String) (now : Nat) :
    (connect st cid u un now).active_connections =
      fupd st.active_connections cid
        (some ⟨cid, u, un, now, now, []⟩) := rfl

theorem connect_websockets (st : MState) (cid u un : String) (now : Nat) :
    (connect st cid u un now).websockets = fupd st.websockets cid true := rfl

theorem connect_rooms (st : MState) (cid u un : String) (now : Nat) :
    (connect st cid u un now).room_subscriptions = st.room_subscriptions := rfl

theorem connect_outbox (st : MState) (cid u un : String) (now : Nat) :
    (connect st cid u un now).outbox = st.outbox := rfl

theorem subscribe_not_registered (st : MState) (cid room : String)
    (hc : st.active_connections cid = none) : subscribe st cid room = st := by
  simp [subscribe, hc]

theorem subscribe_rooms (st : MState) (cid room : String) (ci : ConnectionInfo)
    (hc : st.active_connections cid = some ci) :
    (subscribe st cid room).room_subscriptions =
      fupd st.room_subscriptions room
        (some (if cid ∈ (st.room_subscriptions room).getD [] then
                 (st.room_subscriptions room).getD []
               else (st.room_subscriptions room).getD [] ++ [cid])) := by
  simp only [subscribe, hc]

theorem subscribe_active (st : MState) (cid room : String) (ci : ConnectionInfo)
    (hc : st.active_connections cid = some ci) :
    (subscribe st cid room).active_connections =
      fupd st.active_connections cid
        (some { ci with subscriptions := ci.subscriptions ++ [room] }) := by
  simp only [subscribe, hc]

theorem subscribe_websockets (st : MState) (cid room : String) :
    (subscribe st cid room).websockets = st.websockets := by
  unfold subscribe
  cases st.active_connections cid <;> rfl

theorem unsubscribe_not_registered (st : MState) (cid room : String)
    (hc : st.active_connections cid = none) : unsubscribe st cid room = st := by
  simp [unsubscribe, hc]

theorem unsubscribe_websockets (st : MState) (cid room : String) :
    (unsubscribe st cid room).websockets = st.websockets := by
  unfold unsubscribe
  cases st.active_connections cid <;> rfl

theorem unsubscribe_rooms_none (st : MState) (cid room : String) (ci : ConnectionInfo)
    (hc : st.active_connections cid = some ci)
    (hr : st.room_subscriptions room = none) :
    (unsubscribe st cid room).room_subscriptions = st.room_subscriptions := by
  simp only [unsubscribe, hc, hr]

theorem unsubscribe_rooms_some (st : MState) (cid room : String) (ci : ConnectionInfo)
    (subs : List String)
    (hc : st.active_connections cid = some ci)
    (hr : st.room_subscriptions room = some subs) :
    (unsubscribe st cid room).room_subscriptions =
      (if (subs.filter (fun c => c != cid)).isEmpty then
         fupd st.room_subscriptions room none
       else fupd st.room_subscriptions room (some (subs.filter (fun c => c != cid)))) := by
  simp only [unsubscribe, hc, hr]

theorem unsubscribe_active (st : MState) (cid room : String) (ci : ConnectionInfo)
    (hc : st.active_connections cid = some ci) :
    (unsubscribe st cid room).active_connections =
      (if room ∈ ci.subscriptions then
         fupd st.active_connections cid
           (some { ci with subscriptions := ci.subscriptions.erase room })
       else st.active_connections) := by
  simp only [unsubscribe, hc]

theorem unsubscribe_rooms_other (st : MState) (cid room r : String)
    (hrr : r ≠ room) :
    (unsubscribe st cid room).room_subscriptions r = st.room_subscriptions r := by
  unfold unsubscribe
  cases st.active_connections cid with
  | none => rfl
  | some ci =>
    dsimp only
    cases st.room_subscriptions room with
    | none => rfl
    | some subs =>
      dsimp only
      split <;> exact fupd_other _ _ _ _ hrr

theorem unsubscribe_rooms_self_cleared (st : MState) (cid room : String)
    (ci : ConnectionInfo) (hc : st.active_connections cid = some ci) :
    ∀ subs, (unsubscribe st cid room).room_subscriptions room = some subs →
      cid ∉ subs := by
  intro subs hs hmem
  cases hr0 : st.room_subscriptions room with
  | none =>
    rw [unsubscribe_rooms_none st cid room ci hc hr0, hr0] at hs
    cases hs
  | some s0 =>
    rw [unsubscribe_rooms_some st cid room ci s0 hc hr0] at hs
    by_cases he : (s0.filter (fun c => c != cid)).isEmpty
    · rw [if_pos he, fupd_self] at hs
      cases hs
    · rw [if_neg he, fupd_self] at hs
      have h1 := Option.some.inj hs
      rw [← h1] at hmem
      have := List.of_mem_filter hmem
      simp at this

theorem unsubscribe_rooms_sub (st : MState) (cid room r : String)
    (subs' : List String) (c : String)
    (hs : (unsubscribe st cid room).room_subscriptions r = some subs')
    (hcm : c ∈ subs') :
    ∃ subs, st.room_subscriptions r = some subs ∧ c ∈ subs := by
  cases hc : st.active_connections cid with
  | none =>
    rw [unsubscribe_not_registered st cid room hc] at hs
    exact ⟨subs', hs, hcm⟩
  | some ci =>
    by_cases hrr : r = room
    · subst hrr
      cases hr0 : st.room_subscriptions r with
      | none =>
        rw [unsubscribe_rooms_none st cid r ci hc hr0, hr0] at hs
        cases hs
      | some s0 =>
        rw [unsubscribe_rooms_some st cid r ci s0 hc hr0] at hs
        by_cases he : (s0.filter (fun q => q != cid)).isEmpty
        · rw [if_pos he, fupd_self] at hs
          cases hs
        · rw [if_neg he, fupd_self] at hs
          have h1 := Option.some.inj hs
          rw [← h1] at hcm
          exact ⟨s0, rfl, List.mem_of_mem_filter hcm⟩
    · rw [unsubscribe_rooms_other st cid room r hrr] at hs
      exact ⟨subs', hs, hcm⟩

theorem unsubscribe_active_isSome (st : MState) (cid room c : String) :
    ((unsubscribe st cid room).active_connections c).isSome =
      (st.active_connections c).isSome := by
  cases hc : st.active_connections cid with
  | none => rw [unsubscribe_not_registered st cid room hc]
  | some ci =>
    rw [unsubscribe_active st cid room ci hc]
    by_cases hm : room ∈ ci.subscriptions
    · rw [if_pos hm]
      by_cases hcc : c = cid
      · subst hcc
        rw [fupd_self, hc]
        rfl
      · rw [fupd_other _ _ _ _ hcc]
    · rw [if_neg hm]

theorem send_personal_message_no_socket (st : MState) (cid : String) (msg : OutMsg)
    (b : Bool) (now : Nat) (h : st.websockets cid = false) :
    send_personal_message st cid msg b now = st := by
  simp [send_personal_message, h]

theorem send_personal_message_ok (st : MState) (cid : String) (msg : OutMsg)
    (now : Nat) (h : st.websockets cid = true) :
    send_personal_message st cid msg false now =
      { st with outbox := st.outbox ++ [(cid, msg)] } := by
  simp [send_personal_message, h]

/-- Structural invariant of the `ConnectionManager` maps: the websocket
dict and the registry have the same key set; every Room Subscription
Index entry is a nonempty duplicate-free set; and every member of a room
entry is a registered connection whose subscription list mentions the
room. -/
structure MInv (st : MState) : Prop where
  regMatch : ∀ c, (st.active_connections c).isSome = st.websockets c
  roomNonempty : ∀ r, st.room_subscriptions r ≠ some []
  roomNodup : ∀ r subs, st.room_subscriptions r = some subs → subs.Nodup
  roomRefs : ∀ r subs c, st.room_subscriptions r = some subs → c ∈ subs →
      ∃ ci, st.active_connections c = some ci ∧ r ∈ ci.subscriptions

theorem inv_initState : MInv initState := by
  constructor <;> intro c <;> simp [initState]

theorem inv_transfer (s t : MState)
    (ha : t.active_connections = s.active_connections)
    (hw : t.websockets = s.websockets)
    (hr : t.room_subscriptions = s.room_subscriptions)
    (h : MInv s) : MInv t := by
  constructor
  · intro c; rw [ha, hw]; exact h.regMatch c
  · intro r; rw [hr]; exact h.roomNonempty r
  · intro r subs hs; rw [hr] at hs; exact h.roomNodup r subs hs
  · intro r subs c hs hcs
    rw [hr] at hs; rw [ha]
    exact h.roomRefs r subs c hs hcs

theorem inv_update_presence (st : MState) (u un s c : String) (now : Nat)
    (h : MInv st) : MInv (update_presence st u un s c now) :=
  inv_transfer st (update_presence st u un s c now) rfl rfl rfl h

theorem inv_broadcast_presence (st : MState) (u un s : String) (now : Nat)
    (h : MInv st) : MInv (broadcast_presence st u un s now) :=
  inv_transfer st (broadcast_presence st u un s now) rfl rfl rfl h

theorem inv_connect (st : MState) (cid u un : String) (now : Nat)
    (h0 : st.active_connections cid = none) (h : MInv st) :
    MInv (connect st cid u un now) := by
  constructor
  · intro c
    rw [connect_active, connect_websockets]
    by_cases hcc : c = cid
    · subst hcc
      rw [fupd_self, fupd_self]
      rfl
    · rw [fupd_other _ _ _ _ hcc, fupd_other _ _ _ _ hcc]
      exact h.regMatch c
  · intro r
    rw [connect_rooms]
    exact h.roomNonempty r
  · intro r subs hs
    rw [connect_rooms] at hs
    exact h.roomNodup r subs hs
  · intro r subs c hs hcs
    rw [connect_rooms] at hs
    obtain ⟨ci, hci, hmem⟩ := h.roomRefs r subs c hs hcs
    have hne : c ≠ cid := by
      intro hcc
      rw [hcc, h0] at hci
      cases hci
    rw [connect_active]
    exact ⟨ci, by rw [fupd_other _ _ _ _ hne]; exact hci, hmem⟩

theorem inv_subscribe (st : MState) (cid room : String) (h : MInv st) :
    MInv (subscribe st cid room) := by
  cases hc : st.active_connections cid with
  | none =>
    rw [subscribe_not_registered st cid room hc]
    exact h
  | some ci =>
    constructor
    · intro c
      rw [subscribe_active st cid room ci hc, subscribe_websockets]
      by_cases hcc : c = cid
      · subst hcc
        rw [fupd_self]
        have hm := h.regMatch c
        rw [hc] at hm
        simpa using hm
      · rw [fupd_other _ _ _ _ hcc]
        exact h.regMatch c
    · intro r
      rw [subscribe_rooms st cid room ci hc]
      by_cases hrr : r = room
      · subst hrr
        rw [fupd_self]
        intro heq
        have h1 := Option.some.inj heq
        by_cases hmem : cid ∈ (st.room_subscriptions r).getD []
        · rw [if_pos hmem] at h1
          rw [h1] at hmem
          simp at hmem
        · rw [if_neg hmem] at h1
          simp at h1
      · rw [fupd_other _ _ _ _ hrr]
        exact h.roomNonempty r
    · intro r subs hs
      rw [subscribe_rooms st cid room ci hc] at hs
      by_cases hrr : r = room
      · subst hrr
        rw [fupd_self] at hs
        have h1 := Option.some.inj hs
        have h0 : ((st.room_subscriptions r).getD []).Nodup := by
          cases hr0 : st.room_subscriptions r with
          | none => simp
          | some s0 => simpa using h.roomNodup r s0 hr0
        by_cases hmem : cid ∈ (st.room_subscriptions r).getD []
        · rw [if_pos hmem] at h1
          rw [← h1]
          exact h0
        · rw [if_neg hmem] at h1
          rw [← h1]
          refine List.Nodup.append h0 (by simp) ?_
          intro x hx hx2
          rw [List.mem_singleton] at hx2
          subst hx2
          exact hmem hx
      · rw [fupd_other _ _ _ _ hrr] at hs
        exact h.roomNodup r subs hs
    · intro r subs c hs hcs
      rw [subscribe_rooms st cid room ci hc] at hs
      rw [subscribe_active st cid room ci hc]
      by_cases hcc : c = cid
      · subst hcc
        refine ⟨{ ci with subscriptions := ci.subscriptions ++ [room] },
          fupd_self _ _ _, ?_⟩
        by_cases hrr : r = room
        · subst hrr
          simp
        · rw [fupd_other _ _ _ _ hrr] at hs
          obtain ⟨ci2, hci2, hmem⟩ := h.roomRefs r subs c hs hcs
          have hee : ci2 = ci := by
            rw [hc] at hci2
            exact (Option.some.inj hci2).symm
          rw [hee] at hmem
          simp only [List.mem_append]
          exact Or.inl hmem
      · rw [fupd_other _ _ _ _ hcc]
        by_cases hrr : r = room
        · subst hrr
          rw [fupd_self] at hs
          have h1 := Option.some.inj hs
          rw [← h1] at hcs
          have hc0 : c ∈ (st.room_subscriptions r).getD [] := by
            by_cases hmem : cid ∈ (st.room_subscriptions r).getD []
            · rw [if_pos hmem] at hcs
              exact hcs
            · rw [if_neg hmem] at hcs
              rcases List.mem_append.mp hcs with h2 | h2
              · exact h2
              · rw [List.mem_singleton] at h2
                exact absurd h2 hcc
          cases hr0 : st.room_subscriptions r with
          | none => rw [hr0] at hc0; simp at hc0
          | some s0 =>
            rw [hr0] at hc0
            simp only [Option.getD_some] at hc0
            exact h.roomRefs r s0 c hr0 hc0
        · rw [fupd_other _ _ _ _ hrr] at hs
          exact h.roomRefs r subs c hs hcs

theorem inv_unsubscribe (st : MState) (cid room : String) (h : MInv st) :
    MInv (unsubscribe st cid room) := by
  cases hc : st.active_connections cid with
  | none =>
    rw [unsubscribe_not_registered st cid room hc]
    exact h
  | some ci =>
    constructor
    · intro c
      rw [unsubscribe_active_isSome, unsubscribe_websockets]
      exact h.regMatch c
    · intro r
      by_cases hrr : r = room
      · subst hrr
        cases hr0 : st.room_subscriptions r with
        | none =>
          rw [unsubscribe_rooms_none st cid r ci hc hr0, hr0]
          intro heq
          cases heq
        | some s0 =>
          rw [unsubscribe_rooms_some st cid r ci s0 hc hr0]
          by_cases he : (s0.filter (fun q => q != cid)).isEmpty
          · rw [if_pos he, fupd_self]
            intro heq
            cases heq
          · rw [if_neg he, fupd_self]
            intro heq
            have h1 := Option.some.inj heq
            rw [h1] at he
            simp at he
      · rw [unsubscribe_rooms_other st cid room r hrr]
        exact h.roomNonempty r
    · intro r subs hs
      by_cases hrr : r = room
      · subst hrr
        cases hr0 : st.room_subscriptions r with
        | none =>
          rw [unsubscribe_rooms_none st cid r ci hc hr0, hr0] at hs
          cases hs
        | some s0 =>
          rw [unsubscribe_rooms_some st cid r ci s0 hc hr0] at hs
          by_cases he : (s0.filter (fun q => q != cid)).isEmpty
          · rw [if_pos he, fupd_self] at hs
            cases hs
          · rw [if_neg he, fupd_self] at hs
            have h1 := Option.some.inj hs
            rw [← h1]
            exact List.Nodup.filter _ (h.roomNodup r s0 hr0)
      · rw [unsubscribe_rooms_other st cid room r hrr] at hs
        exact h.roomNodup r subs hs
    · intro r subs c hs hcm
      obtain ⟨subs0, hs0, hcm0⟩ := unsubscribe_rooms_sub st cid room r subs c hs hcm
      obtain ⟨ci2, hci2, hmem⟩ := h.roomRefs r subs0 c hs0 hcm0
      rw [unsubscribe_active st cid room ci hc]
      by_cases hcc : c = cid
      · subst hcc
        have hee : ci2 = ci := by
          rw [hc] at hci2
          exact (Option.some.inj hci2).symm
        subst hee
        have hrr : r ≠ room := by
          intro hreq
          subst hreq
          exact unsubscribe_rooms_self_cleared st c r ci2 hc subs hs hcm
        by_cases hm : room ∈ ci2.subscriptions
        · rw [if_pos hm]
          refine ⟨_, fupd_self _ _ _, ?_⟩
          exact List.mem_erase_of_ne hrr |>.mpr hmem
        · rw [if_neg hm]
          exact ⟨ci2, hci2, hmem⟩
      · by_cases hm : room ∈ ci.subscriptions
        · rw [if_pos hm]
          rw [← fupd_other st.active_connections cid
            (some { ci with subscriptions := ci.subscriptions.erase room }) c hcc] at hci2
          exact ⟨ci2, hci2, hmem⟩
        · rw [if_neg hm]
          exact ⟨ci2, hci2, hmem⟩


theorem disconnect_not_registered (st : MState) (cid : String) (now : Nat)
    (hc : st.active_connections cid = none) : disconnect st cid now = st := by
  simp [disconnect, hc]

theorem disconnect_components (st : MState) (cid : String) (now : Nat)
    (ci : ConnectionInfo) (hc : st.active_connections cid = some ci) :
    (disconnect st cid now).active_connections =
      fupd ((ci.subscriptions.foldl (fun s r => unsubscribe s cid r) st).active_connections)
        cid none
    ∧ (disconnect st cid now).websockets =
      fupd ((ci.subscriptions.foldl (fun s r => unsubscribe s cid r) st).websockets)
        cid false
    ∧ (disconnect st cid now).room_subscriptions =
      (ci.subscriptions.foldl (fun s r => unsubscribe s cid r) st).room_subscriptions
    ∧ (disconnect st cid now).outbox =
      (ci.subscriptions.foldl (fun s r => unsubscribe s cid r) st).outbox := by
  simp only [disconnect, hc]
  exact ⟨rfl, rfl, rfl, rfl⟩

theorem disconnect_active_self (st : MState) (cid : String) (now : Nat) :
    (disconnect st cid now).active_connections cid = none := by
  cases hc : st.active_connections cid with
  | none => rw [disconnect_not_registered st cid now hc]; exact hc
  | some ci =>
    rw [(disconnect_components st cid now ci hc).1, fupd_self]

theorem foldl_unsubscribe_websockets (cid : String) :
    ∀ (pending : List String) (st : MState),
      (pending.foldl (fun s r => unsubscribe s cid r) st).websockets = st.websockets := by
  intro pending
  induction pending with
  | nil => intro st; rfl
  | cons r0 rest ih =>
    intro st
    rw [List.foldl_cons, ih, unsubscribe_websockets]

theorem foldl_unsubscribe_active_isSome (cid c : String) :
    ∀ (pending : List String) (st : MState),
      ((pending.foldl (fun s r => unsubscribe s cid r) st).active_connections c).isSome =
        (st.active_connections c).isSome := by
  intro pending
  induction pending with
  | nil => intro st; rfl
  | cons r0 rest ih =>
    intro st
    rw [List.foldl_cons, ih, unsubscribe_active_isSome]

theorem foldl_unsubscribe_clears (cid : String) :
    ∀ (pending : List String) (st : MState),
      (st.active_connections cid).isSome = true →
      (∀ r subs, st.room_subscriptions r = some subs → cid ∈ subs → r ∈ pending) →
      ∀ r subs,
        (pending.foldl (fun s room => unsubscribe s cid room) st).room_subscriptions r
          = some subs → cid ∉ subs := by
  intro pending
  induction pending with
  | nil =>
    intro st hreg hcov r subs hs hmem
    exact List.not_mem_nil r (hcov r subs hs hmem)
  | cons r0 rest ih =>
    intro st hreg hcov r subs hs
    rw [List.foldl_cons] at hs
    refine ih (unsubscribe st cid r0) ?_ ?_ r subs hs
    · rw [unsubscribe_active_isSome]
      exact hreg
    · intro r1 subs1 hs1 hmem1
      obtain ⟨ci, hci⟩ : ∃ ci, st.active_connections cid = some ci := by
        cases hcx : st.active_connections cid with
        | none => rw [hcx] at hreg; cases hreg
        | some ci => exact ⟨ci, rfl⟩
      by_cases hrr : r1 = r0
      · subst hrr
        exact absurd hmem1 (unsubscribe_rooms_self_cleared st cid r1 ci hci subs1 hs1)
      · rw [unsubscribe_rooms_other st cid r0 r1 hrr] at hs1
        have hin := hcov r1 subs1 hs1 hmem1
        rcases List.mem_cons.mp hin with h1 | h1
        · exact absurd h1 hrr
        · exact h1

theorem foldl_unsubscribe_inv (cid : String) :
    ∀ (pending : List String) (st : MState), MInv st →
      MInv (pending.foldl (fun s r => unsubscribe s cid r) st) := by
  intro pending
  induction pending with
  | nil => intro st h; exact h
  | cons r0 rest ih =>
    intro st h
    rw [List.foldl_cons]
    exact ih (unsubscribe st cid r0) (inv_unsubscribe st cid r0 h)

theorem inv_disconnect (st : MState) (cid : String) (now : Nat) (h : MInv st) :
    MInv (disconnect st cid now) := by
  cases hc : st.active_connections cid with
  | none =>
    rw [disconnect_not_registered st cid now hc]
    exact h
  | some ci =>
    obtain ⟨hA, hW, hR, _⟩ := disconnect_components st cid now ci hc
    have hreg : (st.active_connections cid).isSome = true := by rw [hc]; rfl
    have hcov : ∀ r subs, st.room_subscriptions r = some subs → cid ∈ subs →
        r ∈ ci.subscriptions := by
      intro r subs hs hmem
      obtain ⟨ci2, hci2, hmem2⟩ := h.roomRefs r subs cid hs hmem
      have hee : ci2 = ci := by
        rw [hc] at hci2
        exact (Option.some.inj hci2).symm
      rw [hee] at hmem2
      exact hmem2
    have hfold := foldl_unsubscribe_clears cid ci.subscriptions st hreg hcov
    have hinvf : MInv (ci.subscriptions.foldl (fun s r => unsubscribe s cid r) st) :=
      foldl_unsubscribe_inv cid ci.subscriptions st h
    constructor
    · intro c
      rw [hA, hW]
      by_cases hcc : c = cid
      · subst hcc
        rw [fupd_self, fupd_self]
        rfl
      · rw [fupd_other _ _ _ _ hcc, fupd_other _ _ _ _ hcc]
        exact hinvf.regMatch c
    · intro r
      rw [hR]
      exact hinvf.roomNonempty r
    · intro r subs hs
      rw [hR] at hs
      exact hinvf.roomNodup r subs hs
    · intro r subs c hs hcm
      rw [hR] at hs
      rw [hA]
      by_cases hcc : c = cid
      · subst hcc
        exact absurd hcm (hfold r subs hs)
      · obtain ⟨ci2, hci2, hmem⟩ := hinvf.roomRefs r subs c hs hcm
        rw [fupd_other _ _ _ _ hcc]
        exact ⟨ci2, hci2, hmem⟩

theorem update_heartbeat_not_registered (st : MState) (cid : String) (now : Nat)
    (hc : st.active_connections cid = none) : update_heartbeat st cid now = st := by
  simp [update_heartbeat, hc]

theorem update_heartbeat_components (st : MState) (cid : String) (now : Nat)
    (ci : ConnectionInfo) (hc : st.active_connections cid = some ci) :
    (update_heartbeat st cid now).active_connections =
      fupd st.active_connections cid (some { ci with last_heartbeat := now })
    ∧ (update_heartbeat st cid now).websockets = st.websockets
    ∧ (update_heartbeat st cid now).room_subscriptions = st.room_subscriptions
    ∧ (update_heartbeat st cid now).outbox = st.outbox
    ∧ (update_heartbeat st cid now).published = st.published
    ∧ (update_heartbeat st cid now).redisStore =
        fupd st.redisStore ("presence:" ++ ci.user_id)
          (some (.presence ⟨ci.user_id, ci.username, "online", cid, now⟩, PRESENCE_TTL)) := by
  simp only [update_heartbeat, hc]
  exact ⟨rfl, rfl, rfl, rfl, rfl, rfl⟩

theorem inv_update_heartbeat (st : MState) (cid : String) (now : Nat) (h : MInv st) :
    MInv (update_heartbeat st cid now) := by
  cases hc : st.active_connections cid with
  | none =>
    rw [update_heartbeat_not_registered st cid now hc]
    exact h
  | some ci =>
    obtain ⟨hA, hW, hR, _⟩ := update_heartbeat_components st cid now ci hc
    constructor
    · intro c
      rw [hA, hW]
      by_cases hcc : c = cid
      · subst hcc
        rw [fupd_self]
        have hm := h.regMatch c
        rw [hc] at hm
        simpa using hm
      · rw [fupd_other _ _ _ _ hcc]
        exact h.regMatch c
    · intro r
      rw [hR]
      exact h.roomNonempty r
    · intro r subs hs
      rw [hR] at hs
      exact h.roomNodup r subs hs
    · intro r subs c hs hcm
      rw [hR] at hs
      rw [hA]
      obtain ⟨ci2, hci2, hmem⟩ := h.roomRefs r subs c hs hcm
      by_cases hcc : c = cid
      · subst hcc
        have hee : ci2 = ci := by
          rw [hc] at hci2
          exact (Option.some.inj hci2).symm
        refine ⟨{ ci with last_heartbeat := now }, fupd_self _ _ _, ?_⟩
        rw [hee] at hmem
        exact hmem
      · rw [fupd_other _ _ _ _ hcc]
        exact ⟨ci2, hci2, hmem⟩

theorem inv_send_personal_message (st : MState) (cid : String) (msg : OutMsg)
    (b : Bool) (now : Nat) (h : MInv st) :
    MInv (send_personal_message st cid msg b now) := by
  unfold send_personal_message
  by_cases hw : st.websockets cid = true
  · rw [if_pos hw]
    cases b with
    | false =>
      simp only [if_neg Bool.false_ne_true]
      exact inv_transfer st _ rfl rfl rfl h
    | true =>
      simp only [if_pos rfl]
      exact inv_disconnect st cid now h
  · rw [if_neg hw]
    exact h

theorem inv_foldl_send (msg : OutMsg) (exclude : Option String)
    (fails : String → Bool) (now : Nat) :
    ∀ (subs : List String) (st : MState), MInv st →
      MInv (subs.foldl
        (fun s connection_id =>
          if pyTruthy exclude && (some connection_id == exclude) then s
          else send_personal_message s connection_id msg (fails connection_id) now)
        st) := by
  intro subs
  induction subs with
  | nil => intro st h; exact h
  | cons c0 rest ih =>
    intro st h
    rw [List.foldl_cons]
    apply ih
    split
    · exact h
    · exact inv_send_personal_message st c0 msg (fails c0) now h

theorem inv_broadcast_to_room (st : MState) (room : String) (msg : OutMsg)
    (exclude : Option String) (fails : String → Bool) (now : Nat) (h : MInv st) :
    MInv (broadcast_to_room st room msg exclude fails now) := by
  unfold broadcast_to_room
  cases st.room_subscriptions room with
  | none => exact h
  | some subs => exact inv_foldl_send msg exclude fails now subs st h

theorem inv_update_typing (st : MState) (u un room : String)
    (fails : String → Bool) (now : Nat) (h : MInv st) :
    MInv (update_typing st u un room fails now) := by
  unfold update_typing
  exact inv_broadcast_to_room _ room _ none fails now (inv_transfer st _ rfl rfl rfl h)

theorem inv_applyOp (st : MState) (op : Op) (h : MInv st) : MInv (applyOp st op) := by
  cases op with
  | connect cid u un now =>
    show MInv (if (st.active_connections cid).isSome = true then st
      else connect st cid u un now)
    by_cases hc : (st.active_connections cid).isSome = true
    · rw [if_pos hc]
      exact h
    · rw [if_neg hc]
      exact inv_connect st cid u un now (Option.not_isSome_iff_eq_none.mp hc) h
  | disconnect cid now => exact inv_disconnect st cid now h
  | subscribe cid room => exact inv_subscribe st cid room h
  | unsubscribe cid room => exact inv_unsubscribe st cid room h
  | ping cid now => exact inv_update_heartbeat st cid now h
  | typing u un room failList now =>
    exact inv_update_typing st u un room (fun c => failList.contains c) now h
  | send cid msg b now => exact inv_send_personal_message st cid msg b now h

theorem inv_foldl_applyOp :
    ∀ (ops : List Op) (st : MState), MInv st → MInv (ops.foldl applyOp st) := by
  intro ops
  induction ops with
  | nil => intro st h; exact h
  | cons op rest ih =>
    intro st h
    rw [List.foldl_cons]
    exact ih (applyOp st op) (inv_applyOp st op h)

theorem inv_reachable (st : MState) (h : Reachable st) : MInv st := by
  obtain ⟨ops, hops⟩ := h
  rw [← hops]
  exact inv_foldl_applyOp ops initState inv_initState


theorem fupd_fupd {α : Type} (m : String → α) (k : String) (v w : α) :
    fupd (fupd m k v) k w = fupd m k w := by
  funext q
  by_cases h : q = k <;> simp [fupd, h]

/-- Claimed property of C1, stated from the spec text: the Room
Subscription Index equals the derived mapping (a connection is listed
under a room exactly when it is registered and its record lists that
room) and no room key holds an empty set. -/
def roomIndexIsDerived (st : MState) : Prop :=
  (∀ r, st.room_subscriptions r ≠ some []) ∧
  (∀ r c, (∃ subs, st.room_subscriptions r = some subs ∧ c ∈ subs) ↔
    (∃ ci, st.active_connections c = some ci ∧ r ∈ ci.subscriptions))

/-- C1 counterexample: after connect; subscribe; subscribe; unsubscribe
the Room Index entry for "r" has been pruned although the registered
connection still lists "r" (subscribe appended the room twice to the
ConnectionInfo list, unsubscribe removed only the first occurrence), so
the Index does not equal the derived mapping in this reachable state. -/
theorem c1_counterexample :
    ¬ roomIndexIsDerived (runOps [.connect "c" "u" "n" 0, .subscribe "c" "r",
      .subscribe "c" "r", .unsubscribe "c" "r"]) := by
  intro h
  obtain ⟨subs, hs, _⟩ := (h.2 "r" "c").mpr
    ⟨⟨"c", "u", "n", 0, 0, ["r"]⟩, by decide, by decide⟩
  rw [show (runOps [.connect "c" "u" "n" 0, .subscribe "c" "r", .subscribe "c" "r",
    .unsubscribe "c" "r"]).room_subscriptions "r" = none from by decide] at hs
  cases hs

/-- C1 (amended): in every reachable state of the ConnectionManager each
Room Subscription Index entry is a nonempty set, and every connection it
lists is registered and lists that room in its own subscriptions; full
equality with the derived mapping does not hold (see the counterexample). -/
theorem c1_room_index_invariant (st : MState) (h : Reachable st) :
    ∀ r subs, st.room_subscriptions r = some subs →
      subs ≠ [] ∧ ∀ c ∈ subs, ∃ ci, st.active_connections c = some ci ∧
        r ∈ ci.subscriptions := by
  intro r subs hs
  have hi := inv_reachable st h
  refine ⟨?_, ?_⟩
  · intro hnil
    rw [hnil] at hs
    exact hi.roomNonempty r hs
  · intro c hcm
    exact hi.roomRefs r subs c hs hcm

theorem c1_room_index_invariant_witness :
    ["c"] ≠ [] ∧ ∀ c ∈ ["c"], ∃ ci,
      (runOps [.connect "c" "u" "n" 0, .subscribe "c" "r"]).active_connections c =
        some ci ∧ "r" ∈ ci.subscriptions :=
  c1_room_index_invariant (runOps [.connect "c" "u" "n" 0, .subscribe "c" "r"])
    ⟨[.connect "c" "u" "n" 0, .subscribe "c" "r"], rfl⟩ "r" ["c"] (by decide)

/-- C2 counterexample: two subscribes of the same (connection, room) pair
leave the Connection record listing the room twice (its subscription list
has count 2), and the state differs from the one reached by a single
subscribe — subscribe is not idempotent on the Connection's own list. -/
theorem c2_counterexample :
    (∃ ci, (runOps [.connect "c" "u" "n" 0, .subscribe "c" "r",
        .subscribe "c" "r"]).active_connections "c" = some ci ∧
      ci.subscriptions.count "r" = 2) ∧
    (runOps [.connect "c" "u" "n" 0, .subscribe "c" "r",
        .subscribe "c" "r"]).active_connections "c" ≠
      (runOps [.connect "c" "u" "n" 0, .subscribe "c" "r"]).active_connections "c" :=
  ⟨⟨⟨"c", "u", "n", 0, 0, ["r", "r"]⟩, by decide, by decide⟩, by decide⟩

/-- C2 (amended): repeated subscribe is idempotent on the Room
Subscription Index — after a subscribe the room's entry counts the
connection exactly once and a second subscribe leaves the Index
unchanged — and it appends the room to the Connection's own subscription
list on every call (so that list is not duplicate-free); unsubscribe is
idempotent on the Room Index and clears the connection from the room's
entry. -/
theorem c2_subscribe_unsubscribe_effects :
    (∀ (st : MState) (cid room : String),
      (subscribe (subscribe st cid room) cid room).room_subscriptions =
        (subscribe st cid room).room_subscriptions) ∧
    (∀ (st : MState) (cid room : String) (ci : ConnectionInfo), Reachable st →
      st.active_connections cid = some ci →
      ∃ subs, (subscribe st cid room).room_subscriptions room = some subs ∧
        subs.count cid = 1) ∧
    (∀ (st : MState) (cid room : String) (ci : ConnectionInfo),
      st.active_connections cid = some ci →
      (subscribe st cid room).active_connections cid =
        some { ci with subscriptions := ci.subscriptions ++ [room] }) ∧
    (∀ (st : MState) (cid room : String),
      (unsubscribe (unsubscribe st cid room) cid room).room_subscriptions =
        (unsubscribe st cid room).room_subscriptions) ∧
    (∀ (st : MState) (cid room : String) (ci : ConnectionInfo)
      (subs : List String), st.active_connections cid = some ci →
      (unsubscribe st cid room).room_subscriptions room = some subs →
      cid ∉ subs) := by
  refine ⟨?_, ?_, ?_, ?_, ?_⟩
  · intro st cid room
    cases hc : st.active_connections cid with
    | none =>
      rw [subscribe_not_registered st cid room hc,
        subscribe_not_registered st cid room hc]
    | some ci =>
      have hB : (subscribe st cid room).active_connections cid =
          some { ci with subscriptions := ci.subscriptions ++ [room] } := by
        rw [subscribe_active st cid room ci hc, fupd_self]
      have hA : (subscribe st cid room).room_subscriptions =
          fupd st.room_subscriptions room
            (some (if cid ∈ (st.room_subscriptions room).getD [] then
                (st.room_subscriptions room).getD []
              else (st.room_subscriptions room).getD [] ++ [cid])) :=
        subscribe_rooms st cid room ci hc
      have hroom : (subscribe st cid room).room_subscriptions room =
          some (if cid ∈ (st.room_subscriptions room).getD [] then
              (st.room_subscriptions room).getD []
            else (st.room_subscriptions room).getD [] ++ [cid]) := by
        rw [hA, fupd_self]
      have hmem : cid ∈ (if cid ∈ (st.room_subscriptions room).getD [] then
          (st.room_subscriptions room).getD []
        else (st.room_subscriptions room).getD [] ++ [cid]) := by
        by_cases hm : cid ∈ (st.room_subscriptions room).getD []
        · rw [if_pos hm]
          exact hm
        · rw [if_neg hm]
          exact List.mem_append_right _ (List.mem_singleton.mpr rfl)
      rw [subscribe_rooms (subscribe st cid room) cid room _ hB, hroom]
      simp only [Option.getD_some]
      rw [if_pos hmem]
      rw [hA, fupd_fupd]
  · intro st cid room ci hreach hc
    have hi := inv_reachable st hreach
    refine ⟨_, by rw [subscribe_rooms st cid room ci hc, fupd_self], ?_⟩
    by_cases hm : cid ∈ (st.room_subscriptions room).getD []
    · rw [if_pos hm]
      have hnd : ((st.room_subscriptions room).getD []).Nodup := by
        cases hr0 : st.room_subscriptions room with
        | none => simp
        | some s0 => simpa using hi.roomNodup room s0 hr0
      exact List.count_eq_one_of_mem hnd hm
    · rw [if_neg hm]
      rw [List.count_append]
      rw [List.count_eq_zero_of_not_mem hm]
      simp
  · intro st cid room ci hc
    rw [subscribe_active st cid room ci hc, fupd_self]
  · intro st cid room
    cases hc : st.active_connections cid with
    | none =>
      rw [unsubscribe_not_registered st cid room hc,
        unsubscribe_not_registered st cid room hc]
    | some ci =>
      have hc1 : ∃ ci1, (unsubscribe st cid room).active_connections cid = some ci1 := by
        rw [unsubscribe_active st cid room ci hc]
        by_cases hm : room ∈ ci.subscriptions
        · rw [if_pos hm, fupd_self]
          exact ⟨_, rfl⟩
        · rw [if_neg hm, hc]
          exact ⟨ci, rfl⟩
      obtain ⟨ci1, hc1⟩ := hc1
      cases hr0 : st.room_subscriptions room with
      | none =>
        have hr1 : (unsubscribe st cid room).room_subscriptions room = none := by
          rw [unsubscribe_rooms_none st cid room ci hc hr0, hr0]
        rw [unsubscribe_rooms_none (unsubscribe st cid room) cid room ci1 hc1 hr1]
      | some s0 =>
        by_cases he : (s0.filter (fun c => c != cid)).isEmpty
        · have hr1 : (unsubscribe st cid room).room_subscriptions room = none := by
            rw [unsubscribe_rooms_some st cid room ci s0 hc hr0, if_pos he, fupd_self]
          rw [unsubscribe_rooms_none (unsubscribe st cid room) cid room ci1 hc1 hr1]
        · have hr1 : (unsubscribe st cid room).room_subscriptions room =
              some (s0.filter (fun c => c != cid)) := by
            rw [unsubscribe_rooms_some st cid room ci s0 hc hr0, if_neg he, fupd_self]
          rw [unsubscribe_rooms_some (unsubscribe st cid room) cid room ci1
            (s0.filter (fun c => c != cid)) hc1 hr1]
          have hff : (s0.filter (fun c => c != cid)).filter (fun c => c != cid) =
              s0.filter (fun c => c != cid) := by
            rw [List.filter_filter]
            simp
          rw [hff, if_neg he]
          rw [unsubscribe_rooms_some st cid room ci s0 hc hr0, if_neg he, fupd_fupd]
  · intro st cid room ci subs hc hs
    exact unsubscribe_rooms_self_cleared st cid room ci hc subs hs

theorem c2_subscribe_unsubscribe_effects_witness :
    ((subscribe (subscribe (runOps [.connect "c" "u" "n" 0]) "c" "r") "c" "r").room_subscriptions =
      (subscribe (runOps [.connect "c" "u" "n" 0]) "c" "r").room_subscriptions) ∧
    (∃ subs, (subscribe (runOps [.connect "c" "u" "n" 0]) "c" "r").room_subscriptions "r" =
      some subs ∧ subs.count "c" = 1) :=
  ⟨c2_subscribe_unsubscribe_effects.1 (runOps [.connect "c" "u" "n" 0]) "c" "r",
   c2_subscribe_unsubscribe_effects.2.1 (runOps [.connect "c" "u" "n" 0]) "c" "r"
     ⟨"c", "u", "n", 0, 0, []⟩ ⟨[.connect "c" "u" "n" 0], rfl⟩ (by decide)⟩

/-- C6: disconnect removes the Connection record, scrubs the connection
from every Room Index entry leaving no empty keys (in particular connect
immediately followed by disconnect leaves no reference to the id), a
second disconnect of the same id is a no-op, and every Registry operation
on an unknown connection_id is a silent no-op. -/
theorem c6_disconnect_cleanup :
    (∀ (st : MState) (cid : String) (now : Nat), Reachable st →
      (disconnect st cid now).active_connections cid = none ∧
      ∀ r subs, (disconnect st cid now).room_subscriptions r = some subs →
        cid ∉ subs ∧ subs ≠ []) ∧
    (∀ (st : MState) (cid u un : String) (now now2 : Nat), Reachable st →
      st.active_connections cid = none →
      (disconnect (connect st cid u un now) cid now2).active_connections cid = none ∧
      ∀ r subs, (disconnect (connect st cid u un now) cid now2).room_subscriptions r =
        some subs → cid ∉ subs ∧ subs ≠ []) ∧
    (∀ (st : MState) (cid : String) (now now2 : Nat),
      disconnect (disconnect st cid now) cid now2 = disconnect st cid now) ∧
    (∀ (st : MState) (cid room : String) (now : Nat),
      st.active_connections cid = none →
      subscribe st cid room = st ∧ unsubscribe st cid room = st ∧
      disconnect st cid now = st ∧ update_heartbeat st cid now = st) := by
  have hgen : ∀ (st : MState) (cid : String) (now : Nat), Reachable st →
      (disconnect st cid now).active_connections cid = none ∧
      ∀ r subs, (disconnect st cid now).room_subscriptions r = some subs →
        cid ∉ subs ∧ subs ≠ [] := by
    intro st cid now h
    have hi := inv_disconnect st cid now (inv_reachable st h)
    refine ⟨disconnect_active_self st cid now, ?_⟩
    intro r subs hs
    constructor
    · intro hmem
      obtain ⟨ci, hci, _⟩ := hi.roomRefs r subs cid hs hmem
      rw [disconnect_active_self st cid now] at hci
      cases hci
    · intro hnil
      rw [hnil] at hs
      exact hi.roomNonempty r hs
  refine ⟨hgen, ?_, ?_, ?_⟩
  · intro st cid u un now now2 h h0
    obtain ⟨ops, hops⟩ := h
    refine hgen (connect st cid u un now) cid now2
      ⟨ops ++ [Op.connect cid u un now], ?_⟩
    show (ops ++ [Op.connect cid u un now]).foldl applyOp initState = _
    rw [List.foldl_append]
    show applyOp (runOps ops) (Op.connect cid u un now) = _
    rw [hops]
    show (if (st.active_connections cid).isSome = true then st
      else connect st cid u un now) = _
    rw [if_neg (by rw [h0]; simp)]
  · intro st cid now now2
    exact disconnect_not_registered (disconnect st cid now) cid now2
      (disconnect_active_self st cid now)
  · intro st cid room now h0
    exact ⟨subscribe_not_registered st cid room h0,
      unsubscribe_not_registered st cid room h0,
      disconnect_not_registered st cid now h0,
      update_heartbeat_not_registered st cid now h0⟩

theorem c6_disconnect_cleanup_witness :
    ((disconnect (runOps [.connect "c" "u" "n" 0, .subscribe "c" "r"]) "c" 5).active_connections
        "c" = none ∧
      ∀ r subs, (disconnect (runOps [.connect "c" "u" "n" 0, .subscribe "c" "r"]) "c"
        5).room_subscriptions r = some subs → "c" ∉ subs ∧ subs ≠ []) ∧
    (disconnect (disconnect (runOps [.connect "c" "u" "n" 0]) "c" 5) "c" 6 =
      disconnect (runOps [.connect "c" "u" "n" 0]) "c" 5) ∧
    subscribe initState "x" "r" = initState :=
  ⟨c6_disconnect_cleanup.1 (runOps [.connect "c" "u" "n" 0, .subscribe "c" "r"]) "c" 5
      ⟨[.connect "c" "u" "n" 0, .subscribe "c" "r"], rfl⟩,
   c6_disconnect_cleanup.2.2.1 (runOps [.connect "c" "u" "n" 0]) "c" 5 6,
   (c6_disconnect_cleanup.2.2.2 initState "x" "r" 0 rfl).1⟩

/-- C9: in every reachable state the key set of active_connections equals
the key set of the websockets dict — every operation, including the
failure path of send_personal_message, updates both together. -/
theorem c9_registry_socket_sync (st : MState) (h : Reachable st) :
    ∀ c, (st.active_connections c).isSome = st.websockets c :=
  fun c => (inv_reachable st h).regMatch c

theorem c9_registry_socket_sync_witness :
    ((runOps [.connect "c" "u" "n" 0, .send "c" (.pong 1) true 2]).active_connections
      "c").isSome =
      (runOps [.connect "c" "u" "n" 0, .send "c" (.pong 1) true 2]).websockets "c" :=
  c9_registry_socket_sync (runOps [.connect "c" "u" "n" 0, .send "c" (.pong 1) true 2])
    ⟨[.connect "c" "u" "n" 0, .send "c" (.pong 1) true 2], rfl⟩ "c"


theorem broadcast_noFail_state (msg : OutMsg) (now : Nat) :
    ∀ (subs : List String) (st : MState),
      (subs.foldl
        (fun s connection_id =>
          if pyTruthy (none : Option String) && (some connection_id == (none : Option String))
          then s
          else send_personal_message s connection_id msg (noFail connection_id) now)
        st) =
      { st with outbox :=
          st.outbox ++ (subs.filter st.websockets).map (fun c => (c, msg)) } := by
  intro subs
  induction subs with
  | nil =>
    intro st
    simp
  | cons c0 rest ih =>
    intro st
    rw [List.foldl_cons]
    show rest.foldl _ (send_personal_message st c0 msg (noFail c0) now) = _
    by_cases hw : st.websockets c0 = true
    · have hsend : send_personal_message st c0 msg (noFail c0) now =
          { st with outbox := st.outbox ++ [(c0, msg)] } := by
        show send_personal_message st c0 msg false now = _
        exact send_personal_message_ok st c0 msg now hw
      rw [hsend, ih]
      have houts : (st.outbox ++ [(c0, msg)]) ++
            ((rest.filter st.websockets).map (fun c => (c, msg))) =
          st.outbox ++ (((c0 :: rest).filter st.websockets).map (fun c => (c, msg))) := by
        rw [List.filter_cons, if_pos hw, List.map_cons, List.append_assoc]
        rfl
      rw [← houts]
    · have hsend : send_personal_message st c0 msg (noFail c0) now = st := by
        show send_personal_message st c0 msg false now = st
        exact send_personal_message_no_socket st c0 msg false now
          (Bool.not_eq_true _ ▸ (by simpa using hw))
      rw [hsend, ih]
      have houts : (rest.filter st.websockets) = (c0 :: rest).filter st.websockets := by
        rw [List.filter_cons, if_neg hw]
      rw [houts]

theorem broadcast_to_room_noFail (st : MState) (room : String) (msg : OutMsg)
    (now : Nat) :
    broadcast_to_room st room msg none noFail now =
      (match st.room_subscriptions room with
       | none => st
       | some subs =>
         { st with outbox :=
             st.outbox ++ (subs.filter st.websockets).map (fun c => (c, msg)) }) := by
  unfold broadcast_to_room
  cases st.room_subscriptions room with
  | none => rfl
  | some subs => exact broadcast_noFail_state msg now subs st

theorem update_typing_noFail (st : MState) (u un room : String) (now : Nat) :
    update_typing st u un room noFail now =
      (let st2 : MState := { st with redisStore :=
          (fupd st.redisStore ("typing:" ++ room ++ ":" ++ u)
            (some (.typingName un, TYPING_TTL))) }
       match st.room_subscriptions room with
       | none => st2
       | some subs =>
         { st2 with outbox :=
             (st2.outbox ++ (subs.filter st.websockets).map
               (fun c => (c, mkTypingBroadcast u un room))) }) := by
  unfold update_typing
  rw [broadcast_to_room_noFail]

theorem newMsgs_of_append (st : MState) (st2 : MState)
    (l : List (String × OutMsg)) (h : st2.outbox = st.outbox ++ l) :
    newMsgs st st2 = l := by
  unfold newMsgs
  rw [h]
  exact List.drop_left st.outbox l

theorem newMsgs_of_same (st : MState) (st2 : MState)
    (h : st2.outbox = st.outbox) : newMsgs st st2 = [] := by
  unfold newMsgs
  rw [h]
  exact List.drop_length st.outbox


/-- C5: at any watchdog wake-up where the time since the connection's
last_heartbeat exceeds 2 × HEARTBEAT_INTERVAL, the watchdog closes the
socket with close code 1008 ("Heartbeat timeout"), whereupon the receive
loop ends and the endpoint's cleanup path runs disconnect, which removes
the connection from the Registry; and a connection whose last_heartbeat
is at most HEARTBEAT_INTERVAL − ε old at every wake-up is never closed by
the watchdog. -/
theorem c5_heartbeat_watchdog :
    (∀ now last, heartbeatExpired now last = true →
      watchdogRun [(now, last)] = some heartbeatCloseCode) ∧
    (∀ (st : MState) (cid : String) (tEnd : Nat),
      (disconnect st cid tEnd).active_connections cid = none) ∧
    (∀ (wakes : List (Nat × Nat)) (eps : Nat), 0 < eps →
      (∀ p ∈ wakes, p.1 - p.2 ≤ HEARTBEAT_INTERVAL - eps) →
      watchdogRun wakes = none) := by
  refine ⟨?_, ?_, ?_⟩
  · intro now last h
    show (if heartbeatExpired now last = true then some heartbeatCloseCode
      else watchdogRun []) = some heartbeatCloseCode
    rw [if_pos h]
  · intro st cid tEnd
    exact disconnect_active_self st cid tEnd
  · intro wakes eps heps
    induction wakes with
    | nil => intro _; rfl
    | cons p rest ih =>
      intro hbound
      obtain ⟨now, last⟩ := p
      have h2 : now - last ≤ HEARTBEAT_INTERVAL - eps := hbound (now, last)
        (List.mem_cons_self (now, last) rest)
      have h1 : heartbeatExpired now last = false := by
        simp only [heartbeatExpired, decide_eq_false_iff_not, not_lt]
        simp only [HEARTBEAT_INTERVAL] at h2 ⊢
        omega
      show (if heartbeatExpired now last = true then some heartbeatCloseCode
        else watchdogRun rest) = none
      rw [h1]
      simp only [Bool.false_eq_true, if_false]
      exact ih (fun q hq => hbound q (List.mem_cons_of_mem _ hq))

theorem c5_heartbeat_watchdog_witness :
    watchdogRun [(100, 10)] = some heartbeatCloseCode ∧
    (disconnect (runOps [.connect "c" "u" "n" 0]) "c" 99).active_connections "c" =
      none ∧
    watchdogRun [(30, 5), (60, 35)] = none :=
  ⟨c5_heartbeat_watchdog.1 100 10 (by decide),
   c5_heartbeat_watchdog.2.1 (runOps [.connect "c" "u" "n" 0]) "c" 99,
   c5_heartbeat_watchdog.2.2 [(30, 5), (60, 35)] 1 (by decide) (by decide)⟩

/-- C7 counterexample: handling a typing frame on a state with two local
subscribers of room "channel_g" fans the TypingBroadcast out to the local
sockets (two frames in the outbox) yet performs no `redis.publish` at
all — the published log is unchanged, so neither "presence:updates" nor
"message:broadcast" carries the typing event to other instances. -/
theorem c7_counterexample :
    (handleFrame (runOps [.connect "a" "ua" "na" 0, .subscribe "a" "channel_g",
          .connect "b" "ub" "nb" 0, .subscribe "b" "channel_g"])
        "b" "ub" "nb" noFail 1 ⟨"typing", some "channel_g", none⟩).published =
      (runOps [.connect "a" "ua" "na" 0, .subscribe "a" "channel_g",
          .connect "b" "ub" "nb" 0, .subscribe "b" "channel_g"]).published ∧
    newMsgs (runOps [.connect "a" "ua" "na" 0, .subscribe "a" "channel_g",
          .connect "b" "ub" "nb" 0, .subscribe "b" "channel_g"])
        (handleFrame (runOps [.connect "a" "ua" "na" 0, .subscribe "a" "channel_g",
            .connect "b" "ub" "nb" 0, .subscribe "b" "channel_g"])
          "b" "ub" "nb" noFail 1 ⟨"typing", some "channel_g", none⟩) =
      [("a", mkTypingBroadcast "ub" "nb" "channel_g"),
       ("b", mkTypingBroadcast "ub" "nb" "channel_g")] := by
  refine ⟨by decide, by decide⟩

/-- C7 (amended): handling a typing event writes the typing key with
TYPING_TTL and fans the TypingBroadcast out to the room's local
subscribers only; no publish is performed on any bus channel, so
subscribers on other gateway instances never receive it. -/
theorem c7_typing_is_local_only :
    ∀ (st : MState) (u un room : String) (now : Nat),
      ((update_typing st u un room noFail now).published = st.published) ∧
      ((update_typing st u un room noFail now).redisStore
          ("typing:" ++ room ++ ":" ++ u) = some (.typingName un, TYPING_TTL)) ∧
      (st.room_subscriptions room = none →
        newMsgs st (update_typing st u un room noFail now) = []) ∧
      (∀ subs, st.room_subscriptions room = some subs →
        newMsgs st (update_typing st u un room noFail now) =
          (subs.filter st.websockets).map
            (fun c => (c, mkTypingBroadcast u un room))) := by
  intro st u un room now
  refine ⟨?_, ?_, ?_, ?_⟩
  · rw [update_typing_noFail]
    cases st.room_subscriptions room <;> rfl
  · rw [update_typing_noFail]
    cases st.room_subscriptions room <;> exact fupd_self _ _ _
  · intro hr
    rw [update_typing_noFail]
    simp only [hr]
    exact newMsgs_of_same st _ rfl
  · intro subs hs
    rw [update_typing_noFail]
    simp only [hs]
    exact newMsgs_of_append st _ _ rfl

theorem c7_typing_is_local_only_witness :
    ((update_typing (runOps [.connect "a" "ua" "na" 0]) "ub" "nb" "channel_g"
        noFail 4).published = (runOps [.connect "a" "ua" "na" 0]).published) ∧
    newMsgs (runOps [.connect "a" "ua" "na" 0])
        (update_typing (runOps [.connect "a" "ua" "na" 0]) "ub" "nb" "channel_g"
          noFail 4) = [] :=
  ⟨(c7_typing_is_local_only (runOps [.connect "a" "ua" "na" 0]) "ub" "nb"
      "channel_g" 4).1,
   (c7_typing_is_local_only (runOps [.connect "a" "ua" "na" 0]) "ub" "nb"
      "channel_g" 4).2.2.1 (by decide)⟩

/-- channel_id field of an outbound frame (none on variants without it). -/
def msgChannelId : OutMsg → Option String
  | .subscribed channel_id _ => channel_id
  | .unsubscribed channel_id _ => channel_id
  | .typingB channel_id _ _ _ => channel_id
  | _ => none

/-- dm_id field of an outbound frame (none on variants without it). -/
def msgDmId : OutMsg → Option String
  | .subscribed _ dm_id => dm_id
  | .unsubscribed _ dm_id => dm_id
  | .typingB _ dm_id _ _ => dm_id
  | _ => none

/-- C10: the TypingBroadcast built for a typing event carries channel_id
= room id exactly when the room id starts with "channel_" and dm_id =
room id exactly when it starts with "dm_"; for any other prefix both
fields are none and the broadcast is still delivered to the room's local
subscribers. -/
theorem c10_typing_broadcast_fields :
    ∀ (u un room : String),
      ((msgChannelId (mkTypingBroadcast u un room) = some room) ↔
        strStartsWith room "channel_" = true) ∧
      ((msgDmId (mkTypingBroadcast u un room) = some room) ↔
        strStartsWith room "dm_" = true) ∧
      (strStartsWith room "channel_" = false → strStartsWith room "dm_" = false →
        msgChannelId (mkTypingBroadcast u un room) = none ∧
        msgDmId (mkTypingBroadcast u un room) = none) ∧
      (∀ (st : MState) (now : Nat) (subs : List String),
        st.room_subscriptions room = some subs →
        newMsgs st (update_typing st u un room noFail now) =
          (subs.filter st.websockets).map
            (fun c => (c, mkTypingBroadcast u un room))) := by
  intro u un room
  refine ⟨?_, ?_, ?_, ?_⟩
  · by_cases hch : strStartsWith room "channel_" = true
    · simp [mkTypingBroadcast, msgChannelId, hch]
    · simp [mkTypingBroadcast, msgChannelId, hch]
  · by_cases hdm : strStartsWith room "dm_" = true
    · simp [mkTypingBroadcast, msgDmId, hdm]
    · simp [mkTypingBroadcast, msgDmId, hdm]
  · intro hch hdm
    constructor
    · simp [mkTypingBroadcast, msgChannelId, hch]
    · simp [mkTypingBroadcast, msgDmId, hdm]
  · intro st now subs hs
    rw [update_typing_noFail]
    simp only [hs]
    exact newMsgs_of_append st _ _ rfl

theorem c10_typing_broadcast_fields_witness :
    (msgChannelId (mkTypingBroadcast "ub" "nb" "room_x") = none ∧
      msgDmId (mkTypingBroadcast "ub" "nb" "room_x") = none) ∧
    newMsgs (runOps [.connect "a" "ua" "na" 0, .subscribe "a" "room_x"])
        (update_typing (runOps [.connect "a" "ua" "na" 0, .subscribe "a" "room_x"])
          "ub" "nb" "room_x" noFail 3) =
      (["a"].filter
          (runOps [.connect "a" "ua" "na" 0, .subscribe "a" "room_x"]).websockets).map
        (fun c => (c, mkTypingBroadcast "ub" "nb" "room_x")) :=
  ⟨(c10_typing_broadcast_fields "ub" "nb" "room_x").2.2.1 (by decide) (by decide),
   (c10_typing_broadcast_fields "ub" "nb" "room_x").2.2.2
     (runOps [.connect "a" "ua" "na" 0, .subscribe "a" "room_x"]) 3 ["a"] (by decide)⟩


theorem handleFrame_not_listed (st : MState) (cid u un : String)
    (fails : String → Bool) (now : Nat) (frame : RawFrame)
    (h : frame.type ∉ MessageTypeValues) :
    handleFrame st cid u un fails now frame =
      send_personal_message st cid (.error validationErrorText (some 500))
        (fails cid) now := by
  unfold handleFrame
  rw [if_neg h]

theorem handleFrame_unknown_listed (st : MState) (cid u un : String)
    (fails : String → Bool) (now : Nat) (frame : RawFrame)
    (h0 : frame.type ∈ MessageTypeValues)
    (h1 : frame.type ≠ "subscribe") (h2 : frame.type ≠ "unsubscribe")
    (h3 : frame.type ≠ "typing") (h4 : frame.type ≠ "ping") :
    handleFrame st cid u un fails now frame =
      send_personal_message st cid
        (.error ("Unknown message type: " ++ frame.type) (some 400))
        (fails cid) now := by
  unfold handleFrame
  rw [if_pos h0, if_neg h1, if_neg h2, if_neg h3, if_neg h4]

theorem handleFrame_ping (st : MState) (cid u un : String)
    (fails : String → Bool) (now : Nat) (ch dm : Option String) :
    handleFrame st cid u un fails now ⟨"ping", ch, dm⟩ =
      send_personal_message (update_heartbeat st cid now) cid (.pong now)
        (fails cid) now := by
  unfold handleFrame
  dsimp only
  rw [if_pos (by decide), if_neg (by decide), if_neg (by decide),
    if_neg (by decide), if_pos rfl]

theorem handleFrame_subscribe (st : MState) (cid u un : String)
    (fails : String → Bool) (now : Nat) (ch dm : Option String)
    (h : pyTruthy (pyOr ch dm) = true) :
    handleFrame st cid u un fails now ⟨"subscribe", ch, dm⟩ =
      send_personal_message (subscribe st cid ((pyOr ch dm).getD "")) cid
        (.subscribed ch dm) (fails cid) now := by
  unfold handleFrame
  dsimp only
  rw [if_pos (by decide), if_pos rfl, if_pos h]

theorem handleFrame_unsubscribe (st : MState) (cid u un : String)
    (fails : String → Bool) (now : Nat) (ch dm : Option String)
    (h : pyTruthy (pyOr ch dm) = true) :
    handleFrame st cid u un fails now ⟨"unsubscribe", ch, dm⟩ =
      send_personal_message (unsubscribe st cid ((pyOr ch dm).getD "")) cid
        (.unsubscribed ch dm) (fails cid) now := by
  unfold handleFrame
  dsimp only
  rw [if_pos (by decide), if_neg (by decide), if_pos rfl, if_pos h]

theorem handleFrame_typing (st : MState) (cid u un : String)
    (fails : String → Bool) (now : Nat) (ch dm : Option String)
    (h : pyTruthy (pyOr ch dm) = true) :
    handleFrame st cid u un fails now ⟨"typing", ch, dm⟩ =
      update_typing st u un ((pyOr ch dm).getD "") fails now := by
  unfold handleFrame
  dsimp only
  rw [if_pos (by decide), if_neg (by decide), if_neg (by decide), if_pos rfl,
    if_pos h]

theorem handleFrame_falsy (st : MState) (cid u un : String)
    (fails : String → Bool) (now : Nat) (t : String) (ch dm : Option String)
    (ht : t = "subscribe" ∨ t = "unsubscribe" ∨ t = "typing")
    (h : pyTruthy (pyOr ch dm) = false) :
    handleFrame st cid u un fails now ⟨t, ch, dm⟩ = st := by
  have hfneg : ¬ pyTruthy (pyOr ch dm) = true := by
    rw [h]
    exact Bool.false_ne_true
  rcases ht with h1 | h1 | h1 <;> subst h1
  · unfold handleFrame
    dsimp only
    rw [if_pos (by decide), if_pos rfl, if_neg hfneg]
  · unfold handleFrame
    dsimp only
    rw [if_pos (by decide), if_neg (by decide), if_pos rfl, if_neg hfneg]
  · unfold handleFrame
    dsimp only
    rw [if_pos (by decide), if_neg (by decide), if_neg (by decide), if_pos rfl,
      if_neg hfneg]


/-- C3 counterexample: a subscribe frame carrying both channel_id and
dm_id is not answered with an Error — the dispatcher subscribes the
connection to the channel room and replies Subscribed; and a subscribe
frame carrying neither id draws no reply at all (still no Error). -/
theorem c3_counterexample :
    newMsgs (runOps [.connect "c" "u" "n" 0])
        (handleFrame (runOps [.connect "c" "u" "n" 0]) "c" "u" "n" noFail 5
          ⟨"subscribe", some "channel_a", some "dm_b"⟩) =
      [("c", .subscribed (some "channel_a") (some "dm_b"))] ∧
    (handleFrame (runOps [.connect "c" "u" "n" 0]) "c" "u" "n" noFail 5
        ⟨"subscribe", some "channel_a", some "dm_b"⟩).room_subscriptions
      "channel_a" = some ["c"] ∧
    newMsgs (runOps [.connect "c" "u" "n" 0])
        (handleFrame (runOps [.connect "c" "u" "n" 0]) "c" "u" "n" noFail 5
          ⟨"subscribe", none, none⟩) = [] := by
  refine ⟨by decide, by decide, by decide⟩

/-- C3 (amended): a subscribe/unsubscribe/typing frame carrying both
channel_id and dm_id is not treated as malformed — channel_id takes
precedence (room id is `channel_id or dm_id`), the operation is performed
on the channel room and the normal Subscribed/Unsubscribed reply (no
reply for typing) is sent, never an Error; a frame whose channel_id and
dm_id are both falsy is silently ignored (state unchanged, no reply).
Either way the dispatcher stays in its ACTIVE loop. -/
theorem c3_room_id_both_or_neither :
    ∀ (st : MState) (cid u un : String) (now : Nat) (ch dm : Option String),
      pyTruthy ch = true → pyTruthy dm = true →
      (handleFrame st cid u un noFail now ⟨"subscribe", ch, dm⟩ =
        send_personal_message (subscribe st cid (ch.getD "")) cid
          (.subscribed ch dm) false now) ∧
      (handleFrame st cid u un noFail now ⟨"unsubscribe", ch, dm⟩ =
        send_personal_message (unsubscribe st cid (ch.getD "")) cid
          (.unsubscribed ch dm) false now) ∧
      (handleFrame st cid u un noFail now ⟨"typing", ch, dm⟩ =
        update_typing st u un (ch.getD "") noFail now) ∧
      (∀ (t : String) (ch2 dm2 : Option String),
        (t = "subscribe" ∨ t = "unsubscribe" ∨ t = "typing") →
        pyTruthy ch2 = false → pyTruthy dm2 = false →
        handleFrame st cid u un noFail now ⟨t, ch2, dm2⟩ = st) := by
  intro st cid u un now ch dm hch hdm
  have hor : pyOr ch dm = ch := by
    simp [pyOr, hch]
  have htr : pyTruthy (pyOr ch dm) = true := by
    rw [hor]
    exact hch
  refine ⟨?_, ?_, ?_, ?_⟩
  · rw [handleFrame_subscribe st cid u un noFail now ch dm htr, hor]
    rfl
  · rw [handleFrame_unsubscribe st cid u un noFail now ch dm htr, hor]
    rfl
  · rw [handleFrame_typing st cid u un noFail now ch dm htr, hor]
  · intro t ch2 dm2 ht h1 h2
    refine handleFrame_falsy st cid u un noFail now t ch2 dm2 ht ?_
    simp [pyOr, h1, h2]

theorem c3_room_id_both_or_neither_witness :
    (handleFrame (runOps [.connect "c" "u" "n" 0]) "c" "u" "n" noFail 5
        ⟨"subscribe", some "channel_a", some "dm_b"⟩ =
      send_personal_message (subscribe (runOps [.connect "c" "u" "n" 0]) "c"
        ((some "channel_a").getD "")) "c"
        (.subscribed (some "channel_a") (some "dm_b")) false 5) ∧
    handleFrame (runOps [.connect "c" "u" "n" 0]) "c" "u" "n" noFail 5
        ⟨"subscribe", some "", none⟩ = runOps [.connect "c" "u" "n" 0] :=
  ⟨(c3_room_id_both_or_neither (runOps [.connect "c" "u" "n" 0]) "c" "u" "n" 5
      (some "channel_a") (some "dm_b") (by decide) (by decide)).1,
   (c3_room_id_both_or_neither (runOps [.connect "c" "u" "n" 0]) "c" "u" "n" 5
      (some "channel_a") (some "dm_b") (by decide) (by decide)).2.2.2
     "subscribe" (some "") none (Or.inl rfl) (by decide) (by decide)⟩

/-- C4 counterexample: the inbound frame {"type":"bogus"} fails WSMessage
validation, so the dispatcher's generic except branch sends exactly one
Error frame — but with code 500, not a 400-class code. -/
theorem c4_counterexample :
    newMsgs (runOps [.connect "c" "u" "n" 0])
        (handleFrame (runOps [.connect "c" "u" "n" 0]) "c" "u" "n" noFail 1
          ⟨"bogus", none, none⟩) =
      [("c", .error validationErrorText (some 500))] := by
  decide

/-- C4 (amended): a frame whose tag is outside the MessageType union
(such as "bogus") raises in validation and the generic except branch
sends exactly one Error frame with code 500; a tag inside the union but
not handled by the dispatcher (such as "pong") reaches the final else
branch and draws exactly one Error frame with code 400.  In both cases
the registry and room index are untouched, the connection stays ACTIVE,
and a subsequent ping is still answered with a Pong. -/
theorem c4_unknown_frames :
    ∀ (st : MState) (cid u un : String) (now now2 : Nat) (frame : RawFrame),
      st.websockets cid = true →
      (frame.type ∉ MessageTypeValues →
        newMsgs st (handleFrame st cid u un noFail now frame) =
          [(cid, .error validationErrorText (some 500))] ∧
        (handleFrame st cid u un noFail now frame).active_connections =
          st.active_connections ∧
        (handleFrame st cid u un noFail now frame).room_subscriptions =
          st.room_subscriptions) ∧
      (frame.type ∈ MessageTypeValues → frame.type ≠ "subscribe" →
        frame.type ≠ "unsubscribe" → frame.type ≠ "typing" →
        frame.type ≠ "ping" →
        newMsgs st (handleFrame st cid u un noFail now frame) =
          [(cid, .error ("Unknown message type: " ++ frame.type) (some 400))] ∧
        (handleFrame st cid u un noFail now frame).active_connections =
          st.active_connections) ∧
      (frame.type ∉ MessageTypeValues →
        newMsgs st (handleFrames st cid u un noFail
          [(now, frame), (now2, ⟨"ping", none, none⟩)]) =
          [(cid, .error validationErrorText (some 500)), (cid, .pong now2)]) := by
  intro st cid u un now now2 frame hws
  refine ⟨?_, ?_, ?_⟩
  · intro hmem
    rw [handleFrame_not_listed st cid u un noFail now frame hmem]
    rw [show (noFail cid) = false from rfl]
    rw [send_personal_message_ok st cid _ now hws]
    exact ⟨newMsgs_of_append st _ _ rfl, rfl, rfl⟩
  · intro hmem h1 h2 h3 h4
    rw [handleFrame_unknown_listed st cid u un noFail now frame hmem h1 h2 h3 h4]
    rw [show (noFail cid) = false from rfl]
    rw [send_personal_message_ok st cid _ now hws]
    exact ⟨newMsgs_of_append st _ _ rfl, rfl⟩
  · intro hmem
    show newMsgs st (handleFrame (handleFrame st cid u un noFail now frame)
      cid u un noFail now2 ⟨"ping", none, none⟩) = _
    rw [handleFrame_not_listed st cid u un noFail now frame hmem]
    rw [show (noFail cid) = false from rfl]
    rw [send_personal_message_ok st cid _ now hws]
    rw [handleFrame_ping _ cid u un noFail now2 none none]
    have hcomp : (update_heartbeat { st with outbox :=
          st.outbox ++ [(cid, OutMsg.error validationErrorText (some 500))] }
          cid now2).outbox =
          st.outbox ++ [(cid, OutMsg.error validationErrorText (some 500))] ∧
        (update_heartbeat { st with outbox :=
          st.outbox ++ [(cid, OutMsg.error validationErrorText (some 500))] }
          cid now2).websockets = st.websockets := by
      cases hc2 : ({ st with outbox :=
          st.outbox ++ [(cid, OutMsg.error validationErrorText (some 500))]
        } : MState).active_connections cid with
      | none =>
        rw [update_heartbeat_not_registered _ cid now2 hc2]
        exact ⟨rfl, rfl⟩
      | some ci =>
        obtain ⟨_, hW, _, hO, _⟩ := update_heartbeat_components _ cid now2 ci hc2
        exact ⟨hO, hW⟩
    have hws2 : (update_heartbeat { st with outbox :=
        st.outbox ++ [(cid, OutMsg.error validationErrorText (some 500))] }
        cid now2).websockets cid = true := by
      rw [hcomp.2]
      exact hws
    rw [show (noFail cid) = false from rfl]
    rw [send_personal_message_ok _ cid _ now2 hws2]
    refine newMsgs_of_append st _ _ ?_
    show (update_heartbeat { st with outbox :=
        st.outbox ++ [(cid, OutMsg.error validationErrorText (some 500))] }
        cid now2).outbox ++ [(cid, OutMsg.pong now2)] = _
    rw [hcomp.1, List.append_assoc]
    rfl

theorem c4_unknown_frames_witness :
    newMsgs (runOps [.connect "c" "u" "n" 0])
        (handleFrame (runOps [.connect "c" "u" "n" 0]) "c" "u" "n" noFail 1
          ⟨"bogus", none, none⟩) =
      [("c", .error validationErrorText (some 500))] ∧
    newMsgs (runOps [.connect "c" "u" "n" 0])
        (handleFrames (runOps [.connect "c" "u" "n" 0]) "c" "u" "n" noFail
          [(1, ⟨"bogus", none, none⟩), (2, ⟨"ping", none, none⟩)]) =
      [("c", .error validationErrorText (some 500)), ("c", .pong 2)] ∧
    newMsgs (runOps [.connect "c" "u" "n" 0])
        (handleFrame (runOps [.connect "c" "u" "n" 0]) "c" "u" "n" noFail 1
          ⟨"pong", none, none⟩) =
      [("c", .error ("Unknown message type: " ++ "pong") (some 400))] :=
  ⟨((c4_unknown_frames (runOps [.connect "c" "u" "n" 0]) "c" "u" "n" 1 2
      ⟨"bogus", none, none⟩ (by decide)).1 (by decide)).1,
   (c4_unknown_frames (runOps [.connect "c" "u" "n" 0]) "c" "u" "n" 1 2
      ⟨"bogus", none, none⟩ (by decide)).2.2 (by decide),
   ((c4_unknown_frames (runOps [.connect "c" "u" "n" 0]) "c" "u" "n" 1 2
      ⟨"pong", none, none⟩ (by decide)).2.1 (by decide) (by decide) (by decide)
      (by decide) (by decide)).1⟩

/-- C8 counterexample: with two connections of the same user, after the
second disconnects the stored presence status is "offline"; a ping on the
first connection then rewrites the record with status "online" — the ping
handler writes the literal status "online" rather than leaving the stored
status unchanged. -/
theorem c8_counterexample :
    (runOps [.connect "c1" "u" "n" 0, .connect "c2" "u" "n" 0,
        .disconnect "c2" 1]).redisStore "presence:u" =
      some (.presence ⟨"u", "n", "offline", "c2", 1⟩, PRESENCE_TTL) ∧
    (handleFrame (runOps [.connect "c1" "u" "n" 0, .connect "c2" "u" "n" 0,
        .disconnect "c2" 1]) "c1" "u" "n" noFail 2
        ⟨"ping", none, none⟩).redisStore "presence:u" =
      some (.presence ⟨"u", "n", "online", "c1", 2⟩, PRESENCE_TTL) := by
  refine ⟨by decide, by decide⟩

/-- C8 (amended): for a registered connection with a socket, receiving a
Ping sets that connection's last_heartbeat to the current time, rewrites
the user's presence record with status "online" (not necessarily the
previously stored status) and a fresh PRESENCE_TTL, and replies with
exactly one Pong carrying the current timestamp; all other connections'
records, all other Redis keys, the room index and the socket dict are
unchanged. -/
theorem c8_ping_updates :
    ∀ (st : MState) (cid u un : String) (now : Nat) (ci : ConnectionInfo),
      st.active_connections cid = some ci → st.websockets cid = true →
      ((handleFrame st cid u un noFail now ⟨"ping", none, none⟩).active_connections
          cid = some { ci with last_heartbeat := now }) ∧
      ((handleFrame st cid u un noFail now ⟨"ping", none, none⟩).redisStore
          ("presence:" ++ ci.user_id) =
        some (.presence ⟨ci.user_id, ci.username, "online", cid, now⟩,
          PRESENCE_TTL)) ∧
      (newMsgs st (handleFrame st cid u un noFail now ⟨"ping", none, none⟩) =
        [(cid, .pong now)]) ∧
      (∀ c, c ≠ cid →
        (handleFrame st cid u un noFail now ⟨"ping", none, none⟩).active_connections
          c = st.active_connections c) ∧
      (∀ k, k ≠ "presence:" ++ ci.user_id →
        (handleFrame st cid u un noFail now ⟨"ping", none, none⟩).redisStore k =
          st.redisStore k) ∧
      ((handleFrame st cid u un noFail now ⟨"ping", none, none⟩).room_subscriptions =
        st.room_subscriptions) ∧
      ((handleFrame st cid u un noFail now ⟨"ping", none, none⟩).websockets =
        st.websockets) := by
  intro st cid u un now ci hc hws
  rw [handleFrame_ping st cid u un noFail now none none]
  obtain ⟨hA, hW, hR, hO, hP, hD⟩ := update_heartbeat_components st cid now ci hc
  have hws2 : (update_heartbeat st cid now).websockets cid = true := by
    rw [hW]
    exact hws
  rw [show (noFail cid) = false from rfl]
  rw [send_personal_message_ok _ cid _ now hws2]
  refine ⟨?_, ?_, ?_, ?_, ?_, ?_, ?_⟩
  · show (update_heartbeat st cid now).active_connections cid = _
    rw [hA, fupd_self]
  · show (update_heartbeat st cid now).redisStore _ = _
    rw [hD, fupd_self]
  · refine newMsgs_of_append st _ _ ?_
    show (update_heartbeat st cid now).outbox ++ [(cid, OutMsg.pong now)] = _
    rw [hO]
  · intro c hcc
    show (update_heartbeat st cid now).active_connections c = _
    rw [hA, fupd_other _ _ _ _ hcc]
  · intro k hk
    show (update_heartbeat st cid now).redisStore k = _
    rw [hD, fupd_other _ _ _ _ hk]
  · show (update_heartbeat st cid now).room_subscriptions = _
    exact hR
  · show (update_heartbeat st cid now).websockets = _
    exact hW

theorem c8_ping_updates_witness :
    ((handleFrame (runOps [.connect "c" "u" "n" 0]) "c" "u" "n" noFail 7
        ⟨"ping", none, none⟩).active_connections "c" =
      some ⟨"c", "u", "n", 0, 7, []⟩) ∧
    newMsgs (runOps [.connect "c" "u" "n" 0])
        (handleFrame (runOps [.connect "c" "u" "n" 0]) "c" "u" "n" noFail 7
          ⟨"ping", none, none⟩) = [("c", .pong 7)] :=
  ⟨(c8_ping_updates (runOps [.connect "c" "u" "n" 0]) "c" "u" "n" 7
      ⟨"c", "u", "n", 0, 0, []⟩ (by decide) (by decide)).1,
   (c8_ping_updates (runOps [.connect "c" "u" "n" 0]) "c" "u" "n" 7
      ⟨"c", "u", "n", 0, 0, []⟩ (by decide) (by decide)).2.2.1⟩

end Presence